import Mathlib

/-!
Verification of the testkit process-orchestration supervisor
(src/bin/testkit.js) against its specification.

The program is a small async orchestrator: it spawns a server process,
polls a URL until the server is ready (waitForUrl), runs a driver
process to completion (spawnProcess), and finally tears the server down
with a two-stage graceful/forced shutdown (gracefulShutdown).

This file shallowly embeds each function of the source as a pure Lean
definition. Time is discretized: probe attempts are modeled as
instantaneous, so the k-th readiness attempt happens at elapsed time
500 * k milliseconds (500 is the fixed poll delay hard-coded in the
source). Asynchronous process behavior (spawn failure events, close
codes, exit delays) is supplied as an explicit environment.
-/

namespace Testkit

/-- Result of one readiness probe attempt, as observed by the loop body
of waitForUrl: the fetch resolved with response.ok true, resolved with
response.ok false, or rejected with a transport error (connection
refused, reset, DNS failure, ...). -/
inductive ProbeResult where
  | ok
  | notOk
  | transportError
  deriving DecidableEq, Repr

/-- Result of waitForUrl: either the URL became ready after a given
elapsed time, or the loop gave up; the timeout failure carries the
target URL, the timeout value, and the elapsed time at which the loop
exited. The JS code throws
Error("Timeout: URL " + url + " was not available within " + timeout / 1000 + " seconds.")
which carries exactly the url and the timeout value. -/
inductive WaitResult where
  | ready (elapsedMs : Nat)
  | timedOut (url : String) (timeoutMs : Nat) (elapsedMs : Nat)
  deriving DecidableEq, Repr

/-- The message built by the throw in waitForUrl. The JS expression
timeout / 1000 is exact division for the timeouts the program uses
(the default 60000); we model it with Nat division. -/
def timeoutMessage (url : String) (timeoutMs : Nat) : String :=
  "Timeout: URL " ++ url ++ " was not available within " ++
    toString (timeoutMs / 1000) ++ " seconds."

/-- Number of probe attempts the while loop performs before the guard
Date.now() - startTime < timeout fails. Attempt k happens at elapsed
time 500 * k, so the guard admits attempt k exactly when 500 * k < T,
i.e. when k < ceil(T / 500) = (T + 499) / 500. -/
def numAttempts (timeoutMs : Nat) : Nat :=
  (timeoutMs + 499) / 500

/-- The body of the waitForUrl while loop, structurally recursing on the
number of attempts that remain before the time guard fails. At each
attempt k: if the fetch resolves with response.ok, return success;
otherwise (non-ok response, or a transport error caught and swallowed
by the try/catch) sleep 500 ms and continue. When no attempts remain
the guard has failed and the loop falls through to the throw. -/
def waitLoop (probe : Nat → ProbeResult) (url : String) (timeoutMs : Nat) :
    Nat → Nat → WaitResult
  | 0, k => .timedOut url timeoutMs (500 * k)
  | remaining + 1, k =>
    match probe k with
    | .ok => .ready (500 * k)
    | .notOk => waitLoop probe url timeoutMs remaining (k + 1)
    | .transportError => waitLoop probe url timeoutMs remaining (k + 1)

/-- waitForUrl(url, timeout): poll the URL every 500 ms until it
answers with an ok response or the timeout elapses. The probe function
gives the outcome of each attempt. -/
def waitForUrl (probe : Nat → ProbeResult) (url : String) (timeoutMs : Nat) :
    WaitResult :=
  waitLoop probe url timeoutMs (numAttempts timeoutMs) 0

/-- Replace every transport error in a probe behavior by a plain non-ok
response. Used to state that the try/catch in waitForUrl swallows
transport errors: the loop treats them exactly like a non-ok response. -/
def swallowTransportErrors (probe : Nat → ProbeResult) : Nat → ProbeResult :=
  fun k =>
    match probe k with
    | .transportError => .notOk
    | r => r

/-- The single asynchronous event that settles the promise returned by
spawnProcess: either the close event with the child close code
(null, modeled as none, when the child was terminated by a signal), or
the error event with an error message. -/
inductive DriverEvent where
  | close (code : Option Int)
  | errorEvent (msg : String)
  deriving DecidableEq, Repr

/-- JS template-literal rendering of the close code: null prints as
"null", a number prints as its decimal representation. -/
def jsCodeString : Option Int → String
  | none => "null"
  | some n => toString n

/-- spawnProcess(command, args): resolves with the close code when it
is exactly 0, rejects with Error("Process exited with code " + code)
for every other close code (including null), and rejects with the error
itself on an error event. -/
def spawnProcess (ev : DriverEvent) : Except String Int :=
  match ev with
  | .close code =>
    if code = some 0 then Except.ok 0
    else Except.error ("Process exited with code " ++ jsCodeString code)
  | .errorEvent msg => Except.error msg

/-- Observable state of a spawned child process at the moment
gracefulShutdown is called, together with its response to the initial
shutdown signal: exitDelayAfterSignal is the time after the initial
signal at which the exit event would fire, or none if the process
ignores the initial signal (the forced kill is assumed effective, as
the source documents). -/
structure ChildProcess where
  exitCode : Option Int
  signalCode : Option String
  exitDelayAfterSignal : Option Nat
  deriving DecidableEq, Repr

/-- Observable outcome of gracefulShutdown: its boolean return value,
the signals it sent to the child in order, and whether it performed the
final await of the exit event after sending SIGKILL. The function
touches the child only by sending signals, so an empty signal list
means the child state is left unchanged. -/
structure ShutdownResult where
  exitedGracefully : Bool
  signalsSent : List String
  awaitedExitAfterKill : Bool
  deriving DecidableEq, Repr

/-- gracefulShutdown(childProcess, timeoutMs = 5000, signal = "SIGTERM"):
1. if the process already exited (exitCode or signalCode non-null)
   return true immediately, sending nothing;
2. otherwise send the initial signal and race the exit event against a
   timeoutMs timer: an exit strictly before the timer fires wins the
   race and the function returns true;
3. if the timer wins, send SIGKILL, await the exit event, return false. -/
def gracefulShutdown (c : ChildProcess) (timeoutMs : Nat) (signal : String) :
    ShutdownResult :=
  if c.exitCode ≠ none ∨ c.signalCode ≠ none then
    { exitedGracefully := true, signalsSent := [], awaitedExitAfterKill := false }
  else
    match c.exitDelayAfterSignal with
    | some d =>
      if d < timeoutMs then
        { exitedGracefully := true, signalsSent := [signal],
          awaitedExitAfterKill := false }
      else
        { exitedGracefully := false, signalsSent := [signal, "SIGKILL"],
          awaitedExitAfterKill := true }
    | none =>
      { exitedGracefully := false, signalsSent := [signal, "SIGKILL"],
        awaitedExitAfterKill := true }

/-- Value stored for a parsed command-line option: "--key=value" stores
the string value, while "--key" or "--key=" stores the JS literal true
(because of the value || true fallback in the source). -/
inductive OptVal where
  | str (s : String)
  | boolTrue
  deriving DecidableEq, Repr

/-- JS template-literal rendering of an options field: a missing field
is the value undefined and prints as "undefined"; true prints as
"true". -/
def jsOptString : Option OptVal → String
  | none => "undefined"
  | some (.str s) => s
  | some .boolTrue => "true"

/-- Assignment options[key] = v on a JS object modeled as an
association list: overwrite an existing binding or append a new one. -/
def setOpt : List (String × OptVal) → String → OptVal → List (String × OptVal)
  | [], k, v => [(k, v)]
  | (k0, v0) :: rest, k, v =>
    if k0 = k then (k, v) :: rest else (k0, v0) :: setOpt rest k v

/-- Property read options[key] on the modeled JS object: none stands
for undefined. -/
def lookupOpt : List (String × OptVal) → String → Option OptVal
  | [], _ => none
  | (k0, v0) :: rest, k => if k0 = k then some v0 else lookupOpt rest k

/-- JS test args[i].startsWith("--"), written on the character list of
the string. -/
def startsWithDashDash (a : String) : Bool :=
  match a.data with
  | '-' :: '-' :: _ => true
  | _ => false

/-- JS slice(2): drop the first two characters. -/
def dropTwo (a : String) : String :=
  String.mk (a.data.drop 2)

/-- Worker for JS split("="): accumulate the current field in reverse
until a separator or the end of the string. -/
def splitOnEqAux : List Char → List Char → List String
  | [], acc => [String.mk acc.reverse]
  | c :: rest, acc =>
    if c = '=' then String.mk acc.reverse :: splitOnEqAux rest []
    else splitOnEqAux rest (c :: acc)

/-- JS split("="): cut the string at every "=" character; an input with
no separator yields the one-element list holding the whole string. -/
def splitOnEq (s : String) : List String :=
  splitOnEqAux s.data []

/-- The option-extraction loop of main: every argument starting with
"--" is removed from the argument list and recorded in options; the key
is the part before the first "=", and the value is the part after it,
replaced by true when it is absent or empty (value || true). Returns
the remaining positional arguments and the options object. -/
def parseArgs : List String → List (String × OptVal) →
    List String × List (String × OptVal)
  | [], opts => ([], opts)
  | a :: rest, opts =>
    if startsWithDashDash a then
      let parts := splitOnEq (dropTwo a)
      let key := parts.headD ""
      let v : OptVal :=
        match parts with
        | _ :: value :: _ => if value = "" then .boolTrue else .str value
        | _ => .boolTrue
      parseArgs rest (setOpt opts key v)
    else
      let (r, o) := parseArgs rest opts
      (a :: r, o)

/-- The readiness target URL built at the top of run2:
the template literal http://localhost:${options.port}. -/
def serverURL (options : List (String × OptVal)) : String :=
  "http://localhost:" ++ jsOptString (lookupOpt options "port")

/-- Environment of one orchestration run: the asynchronous behavior of
the outside world. spawnFails says whether the server spawn fails, in
which case the error event fires on the server handle while the run is
awaiting readiness. probe gives the outcome of each readiness attempt.
unexpectedThrow, when present, is an unexpected exception raised inside
the try block after readiness and before the driver finishes spawning
(the catch and finally of run2 treat every exception from the try block
uniformly, so one injection point suffices to model them). driverEvent
is the event that settles the driver promise. -/
structure Env where
  spawnFails : Bool
  probe : Nat → ProbeResult
  unexpectedThrow : Option String
  driverEvent : DriverEvent

/-- Observable outcome of one run2 invocation followed by the top-level
await main(): the exit code of the orchestrator process, whether the
server handle was created, whether the driver process was started, how
many times gracefulShutdown was called on the server handle, the
readiness URL that was polled, the completed readiness wait result
(none when the run died before the wait could complete), and the error
message printed by the catch block (none when nothing was thrown). -/
structure RunResult where
  exitCode : Nat
  handleCreated : Bool
  driverStarted : Bool
  shutdownCalls : Nat
  url : String
  readiness : Option WaitResult
  caughtMessage : Option String
  deriving DecidableEq, Repr

/-- run2(args, options) followed by the top-level await and process
termination. spawn returns the server handle synchronously, so the
handle exists on every path, including the spawn-failure path where the
error event is only delivered afterwards. On spawn failure the error
handler calls process.exit(1): the process dies at once, the in-flight
readiness wait never completes, and the finally block never runs.
Otherwise the try block awaits waitForUrl with the default 60000 ms
timeout (a timeout throws), possibly suffers an unexpected exception,
then awaits spawnProcess (a non-zero close code rejects); the catch
block swallows whatever was thrown and prints its message; the finally
block calls gracefulShutdown exactly once because serverProcess is
non-null; main then resolves and the node process exits with code 0. -/
def run2 (options : List (String × OptVal)) (env : Env) : RunResult :=
  let url := serverURL options
  if env.spawnFails then
    { exitCode := 1, handleCreated := true, driverStarted := false,
      shutdownCalls := 0, url := url, readiness := none, caughtMessage := none }
  else
    let w := waitForUrl env.probe url 60000
    let step : Bool × Option String :=
      match w with
      | .timedOut u t _ => (false, some (timeoutMessage u t))
      | .ready _ =>
        match env.unexpectedThrow with
        | some m => (false, some m)
        | none =>
          match spawnProcess env.driverEvent with
          | .ok _ => (true, none)
          | .error m => (true, some m)
    { exitCode := 0, handleCreated := true, driverStarted := step.1,
      shutdownCalls := 1, url := url, readiness := some w,
      caughtMessage := step.2 }

/-- Environment of a run where the server spawns, readiness succeeds at
the first attempt, and the driver process exits with close code 2. -/
def envDriverFail2 : Env :=
  { spawnFails := false, probe := fun _ => .ok, unexpectedThrow := none,
    driverEvent := .close (some 2) }

/-- Environment of a run where the server spawn fails: the error event
fires on the server handle. The probe and driver fields are irrelevant
because the process exits before using them. -/
def envSpawnFailA : Env :=
  { spawnFails := true, probe := fun _ => .notOk, unexpectedThrow := none,
    driverEvent := .close (some 0) }

/-- A second spawn-failure environment, with a transport-erroring probe
and a signal-killed driver in the unused fields. -/
def envSpawnFailB : Env :=
  { spawnFails := true, probe := fun _ => .transportError,
    unexpectedThrow := none, driverEvent := .close none }

/-- Environment of a fully successful run: server spawns, readiness
succeeds at the first attempt, driver exits with close code 0. -/
def envAllOk : Env :=
  { spawnFails := false, probe := fun _ => .ok, unexpectedThrow := none,
    driverEvent := .close (some 0) }

/-- Environment of a run where the server spawns but never becomes
ready: every probe attempt reports a non-ok response. -/
def envNeverReady : Env :=
  { spawnFails := false, probe := fun _ => .notOk, unexpectedThrow := none,
    driverEvent := .close (some 0) }

/-- The waitForUrl loop body treats a transport error exactly like a
non-ok response: replacing every transport error in the probe behavior
by a non-ok response does not change the loop result. -/
theorem waitLoop_swallow_eq (probe : Nat → ProbeResult) (url : String)
    (timeoutMs : Nat) :
    ∀ remaining k, waitLoop probe url timeoutMs remaining k =
      waitLoop (swallowTransportErrors probe) url timeoutMs remaining k := by
  intro remaining
  induction remaining with
  | zero => intro k; rfl
  | succ r ih =>
    intro k
    cases hpk : probe k with
    | ok => simp [waitLoop, swallowTransportErrors, hpk]
    | notOk => simp [waitLoop, swallowTransportErrors, hpk, ih]
    | transportError => simp [waitLoop, swallowTransportErrors, hpk, ih]

/-- The waitForUrl loop has only two outcomes: readiness, or the
timeout failure carrying the url and the timeout value. In particular
no probe error of any kind reaches the caller. -/
theorem waitLoop_shape (probe : Nat → ProbeResult) (url : String)
    (timeoutMs : Nat) :
    ∀ remaining k,
      (∃ e, waitLoop probe url timeoutMs remaining k = .ready e) ∨
      (∃ e, waitLoop probe url timeoutMs remaining k = .timedOut url timeoutMs e) := by
  intro remaining
  induction remaining with
  | zero => intro k; exact Or.inr ⟨500 * k, rfl⟩
  | succ r ih =>
    intro k
    cases hpk : probe k with
    | ok => exact Or.inl ⟨500 * k, by simp [waitLoop, hpk]⟩
    | notOk =>
      rcases ih (k + 1) with ⟨e, he⟩ | ⟨e, he⟩
      · exact Or.inl ⟨e, by simp [waitLoop, hpk, he]⟩
      · exact Or.inr ⟨e, by simp [waitLoop, hpk, he]⟩
    | transportError =>
      rcases ih (k + 1) with ⟨e, he⟩ | ⟨e, he⟩
      · exact Or.inl ⟨e, by simp [waitLoop, hpk, he]⟩
      · exact Or.inr ⟨e, by simp [waitLoop, hpk, he]⟩

/-- When no attempt ever reports an ok response, the loop runs through
all of its attempts and exits with the timeout failure at elapsed time
500 * (k + remaining). -/
theorem waitLoop_never_ok (probe : Nat → ProbeResult) (url : String)
    (timeoutMs : Nat) (hp : ∀ k, probe k ≠ ProbeResult.ok) :
    ∀ remaining k, waitLoop probe url timeoutMs remaining k =
      .timedOut url timeoutMs (500 * (k + remaining)) := by
  intro remaining
  induction remaining with
  | zero => intro k; rfl
  | succ r ih =>
    intro k
    have harith : k + 1 + r = k + (r + 1) := by omega
    cases hpk : probe k with
    | ok => exact absurd hpk (hp k)
    | notOk =>
      simp only [waitLoop, hpk]
      rw [ih (k + 1), harith]
    | transportError =>
      simp only [waitLoop, hpk]
      rw [ih (k + 1), harith]

/-- C7: every transport error raised by a readiness probe attempt is
swallowed by the readiness wait: the wait behaves exactly as if the
attempt had returned a non-ok response (so polling continues at the
fixed 500 ms interval), and the error is never propagated to the
caller — the only possible results are readiness and the timeout
failure. -/
theorem waitForUrl_swallows_transport_errors (probe : Nat → ProbeResult)
    (url : String) (timeoutMs : Nat) :
    waitForUrl probe url timeoutMs =
      waitForUrl (swallowTransportErrors probe) url timeoutMs ∧
    ((∃ e, waitForUrl probe url timeoutMs = .ready e) ∨
     (∃ e, waitForUrl probe url timeoutMs = .timedOut url timeoutMs e)) :=
  ⟨waitLoop_swallow_eq probe url timeoutMs (numAttempts timeoutMs) 0,
   waitLoop_shape probe url timeoutMs (numAttempts timeoutMs) 0⟩

/-- C8: for every timeout T and every probe behavior that never
succeeds, the readiness wait fails with the timeout error carrying the
target url and the timeout value, and the elapsed time e at which it
fails satisfies T ≤ e < T + 500, with 500 ms the poll interval and the
first attempt at elapsed time 0. -/
theorem waitForUrl_timeout_window (probe : Nat → ProbeResult) (url : String)
    (timeoutMs : Nat) (hp : ∀ k, probe k ≠ ProbeResult.ok) :
    waitForUrl probe url timeoutMs =
      .timedOut url timeoutMs (500 * numAttempts timeoutMs) ∧
    timeoutMs ≤ 500 * numAttempts timeoutMs ∧
    500 * numAttempts timeoutMs < timeoutMs + 500 := by
  refine ⟨?_, ?_, ?_⟩
  · have h := waitLoop_never_ok probe url timeoutMs hp (numAttempts timeoutMs) 0
    simpa [waitForUrl] using h
  · unfold numAttempts; omega
  · unfold numAttempts; omega

/-- Concrete instance of waitForUrl_timeout_window: a probe that always
reports a non-ok response and a 1200 ms timeout fail at elapsed time
1500, inside the window [1200, 1700). -/
theorem waitForUrl_timeout_window_witness :
    (∀ k, (fun _ : Nat => ProbeResult.notOk) k ≠ ProbeResult.ok) ∧
    (waitForUrl (fun _ : Nat => ProbeResult.notOk) "http://localhost:3000" 1200 =
      .timedOut "http://localhost:3000" 1200 1500 ∧
    1200 ≤ 1500 ∧ 1500 < 1200 + 500) := by
  have hp : ∀ k, (fun _ : Nat => ProbeResult.notOk) k ≠ ProbeResult.ok :=
    fun k h => nomatch h
  exact ⟨hp,
    waitForUrl_timeout_window (fun _ : Nat => ProbeResult.notOk)
      "http://localhost:3000" 1200 hp⟩

/-- C4: when the handle has already exited at call time (a normal exit
code or a signal code is present), gracefulShutdown returns true
immediately, sends no signals (so the child state is untouched, the
function acting on the child only through signal sends), and performs
no waiting. -/
theorem gracefulShutdown_already_exited_noop (c : ChildProcess)
    (timeoutMs : Nat) (signal : String)
    (h : c.exitCode ≠ none ∨ c.signalCode ≠ none) :
    gracefulShutdown c timeoutMs signal =
      { exitedGracefully := true, signalsSent := [],
        awaitedExitAfterKill := false } := by
  unfold gracefulShutdown
  rw [if_pos h]

/-- Concrete instance of gracefulShutdown_already_exited_noop: a child
that already exited with code 0 is left alone and the call returns
true. -/
theorem gracefulShutdown_already_exited_noop_witness :
    ((⟨some 0, none, none⟩ : ChildProcess).exitCode ≠ none ∨
      (⟨some 0, none, none⟩ : ChildProcess).signalCode ≠ none) ∧
    gracefulShutdown ⟨some 0, none, none⟩ 5000 "SIGTERM" =
      { exitedGracefully := true, signalsSent := [],
        awaitedExitAfterKill := false } := by
  have h : ((⟨some 0, none, none⟩ : ChildProcess).exitCode ≠ none ∨
      (⟨some 0, none, none⟩ : ChildProcess).signalCode ≠ none) :=
    Or.inl (by simp)
  exact ⟨h, gracefulShutdown_already_exited_noop ⟨some 0, none, none⟩ 5000 "SIGTERM" h⟩

/-- C5: a running child whose exit event fires d milliseconds after the
initial signal, with d strictly below the escalation timeout, wins the
race against the timer: gracefulShutdown returns true and the only
signal ever sent is the initial one — the SIGKILL escalation never
happens. -/
theorem gracefulShutdown_graceful_within_timeout (c : ChildProcess)
    (timeoutMs : Nat) (signal : String) (d : Nat)
    (hexit : c.exitCode = none) (hsig : c.signalCode = none)
    (hd : c.exitDelayAfterSignal = some d) (hlt : d < timeoutMs) :
    gracefulShutdown c timeoutMs signal =
      { exitedGracefully := true, signalsSent := [signal],
        awaitedExitAfterKill := false } := by
  unfold gracefulShutdown
  rw [if_neg (by simp [hexit, hsig]), hd]
  simp [hlt]

/-- Concrete instance of gracefulShutdown_graceful_within_timeout: a
running child that exits 100 ms after SIGTERM, against a 5000 ms
escalation timeout, shuts down gracefully with no SIGKILL. -/
theorem gracefulShutdown_graceful_within_timeout_witness :
    ((⟨none, none, some 100⟩ : ChildProcess).exitCode = none ∧
      (⟨none, none, some 100⟩ : ChildProcess).signalCode = none ∧
      (⟨none, none, some 100⟩ : ChildProcess).exitDelayAfterSignal = some 100 ∧
      100 < 5000) ∧
    gracefulShutdown ⟨none, none, some 100⟩ 5000 "SIGTERM" =
      { exitedGracefully := true, signalsSent := ["SIGTERM"],
        awaitedExitAfterKill := false } :=
  ⟨⟨rfl, rfl, rfl, by omega⟩,
    gracefulShutdown_graceful_within_timeout ⟨none, none, some 100⟩ 5000
      "SIGTERM" 100 rfl rfl rfl (by omega)⟩

/-- C6: a running child whose exit event does not fire before the
escalation timeout elapses (it fires strictly later, or never, the
child ignoring the initial signal) loses the race: gracefulShutdown
sends the initial signal, then the SIGKILL escalation, then waits for
the exit event, and returns false. -/
theorem gracefulShutdown_escalates_when_timer_wins (c : ChildProcess)
    (timeoutMs : Nat) (signal : String)
    (hexit : c.exitCode = none) (hsig : c.signalCode = none)
    (hd : ∀ d, c.exitDelayAfterSignal = some d → timeoutMs < d) :
    gracefulShutdown c timeoutMs signal =
      { exitedGracefully := false, signalsSent := [signal, "SIGKILL"],
        awaitedExitAfterKill := true } := by
  unfold gracefulShutdown
  rw [if_neg (by simp [hexit, hsig])]
  cases hdelay : c.exitDelayAfterSignal with
  | none => rfl
  | some d =>
    have hgt := hd d hdelay
    simp [Nat.not_lt.mpr (Nat.le_of_lt hgt)]

/-- Concrete instance of gracefulShutdown_escalates_when_timer_wins: a
running child that ignores SIGTERM entirely is SIGKILLed after the
5000 ms timeout and the call returns false. -/
theorem gracefulShutdown_escalates_when_timer_wins_witness :
    ((⟨none, none, none⟩ : ChildProcess).exitCode = none ∧
      (⟨none, none, none⟩ : ChildProcess).signalCode = none ∧
      (∀ d, (⟨none, none, none⟩ : ChildProcess).exitDelayAfterSignal = some d →
        5000 < d)) ∧
    gracefulShutdown ⟨none, none, none⟩ 5000 "SIGTERM" =
      { exitedGracefully := false, signalsSent := ["SIGTERM", "SIGKILL"],
        awaitedExitAfterKill := true } := by
  have hd : ∀ d, (⟨none, none, none⟩ : ChildProcess).exitDelayAfterSignal =
      some d → 5000 < d := fun d h => nomatch h
  exact ⟨⟨rfl, rfl, hd⟩,
    gracefulShutdown_escalates_when_timer_wins ⟨none, none, none⟩ 5000
      "SIGTERM" rfl rfl hd⟩

/-- C9: the promise returned by spawnProcess resolves exactly when the
close code of the child is 0; every other close code rejects, and in
particular a signal-killed child (close code null) rejects with the
message "Process exited with code null" rather than a distinct signal
outcome. -/
theorem spawnProcess_resolves_iff_zero :
    (∀ code : Option Int,
      (∃ r, spawnProcess (.close code) = Except.ok r) ↔ code = some 0) ∧
    spawnProcess (.close none) =
      Except.error "Process exited with code null" := by
  constructor
  · intro code
    constructor
    · rintro ⟨r, hr⟩
      by_contra hne
      simp [spawnProcess, hne] at hr
    · rintro rfl
      exact ⟨0, by simp [spawnProcess]⟩
  · rfl

/-- C1: the claimed exit-code contract does not hold. In the run where
the server spawns, the first readiness probe succeeds, and the driver
process then exits with close code 2, the driver promise rejects with
"Process exited with code 2", the catch block of run2 swallows the
rejection and merely records its message, and the orchestrator process
still terminates with exit code 0 — a non-zero driver exit yields exit
code 0, contrary to the contract. -/
theorem run2_exit_zero_despite_driver_failure :
    envDriverFail2.driverEvent = .close (some 2) ∧
    spawnProcess envDriverFail2.driverEvent =
      Except.error "Process exited with code 2" ∧
    (run2 [] envDriverFail2).driverStarted = true ∧
    (run2 [] envDriverFail2).caughtMessage =
      some "Process exited with code 2" ∧
    (run2 [] envDriverFail2).exitCode = 0 := by
  refine ⟨rfl, rfl, rfl, rfl, rfl⟩

/-- C2 counterexample: a run in which the server spawn fails. The
handle was created (spawn returns it synchronously, before the error
event is delivered), yet the error handler terminates the process with
process.exit(1) and the finally block never runs: shutdown is attempted
zero times, not exactly once, on this exit path. -/
theorem run2_spawn_failure_shutdown_never_attempted :
    (run2 [] envSpawnFailA).handleCreated = true ∧
    (run2 [] envSpawnFailA).shutdownCalls = 0 := ⟨rfl, rfl⟩

/-- C2 (amended): in every run in which the server spawn does not fail,
the handle is created and gracefulShutdown is called on it exactly
once, whichever way the try block ends — success, driver failure,
readiness timeout, or an unexpected exception raised between the
steps — because the finally block runs on all of those paths. Only the
spawn-failure path, where the error handler exits the process
immediately, skips the shutdown. -/
theorem run2_shutdown_exactly_once_when_spawn_ok
    (options : List (String × OptVal)) (env : Env)
    (h : env.spawnFails = false) :
    (run2 options env).handleCreated = true ∧
    (run2 options env).shutdownCalls = 1 := by
  simp [run2, h]

/-- Concrete instance of run2_shutdown_exactly_once_when_spawn_ok: in
the run whose server never becomes ready (readiness timeout path),
shutdown is still attempted exactly once. -/
theorem run2_shutdown_exactly_once_when_spawn_ok_witness :
    envNeverReady.spawnFails = false ∧
    ((run2 [] envNeverReady).handleCreated = true ∧
      (run2 [] envNeverReady).shutdownCalls = 1) :=
  ⟨rfl, run2_shutdown_exactly_once_when_spawn_ok [] envNeverReady rfl⟩

/-- C3 counterexample: in a run where the server fails to spawn,
control does not reach the shutdown step — the error handler calls
process.exit(1), so the orchestrator dies with exit code 1, shutdown is
attempted zero times, and the in-flight readiness wait never completes
(rather than being skipped or failing fast). Only the no-driver part of
the claim holds. -/
theorem run2_spawn_failure_no_shutdown_step :
    (run2 [] envSpawnFailB).driverStarted = false ∧
    (run2 [] envSpawnFailB).shutdownCalls = 0 ∧
    (run2 [] envSpawnFailB).exitCode = 1 ∧
    (run2 [] envSpawnFailB).readiness = none := ⟨rfl, rfl, rfl, rfl⟩

/-- C3 (amended): when the server process fails to spawn, the failure
is logged and the orchestrator process exits immediately with code 1;
no driver process is started, the readiness wait is abandoned without
completing, and control never reaches the shutdown step. -/
theorem run2_spawn_failure_exits_one (options : List (String × OptVal))
    (env : Env) (h : env.spawnFails = true) :
    (run2 options env).exitCode = 1 ∧
    (run2 options env).driverStarted = false ∧
    (run2 options env).shutdownCalls = 0 ∧
    (run2 options env).readiness = none := by
  simp [run2, h]

/-- Concrete instance of run2_spawn_failure_exits_one at the
spawn-failure environment. -/
theorem run2_spawn_failure_exits_one_witness :
    envSpawnFailB.spawnFails = true ∧
    ((run2 [] envSpawnFailB).exitCode = 1 ∧
      (run2 [] envSpawnFailB).driverStarted = false ∧
      (run2 [] envSpawnFailB).shutdownCalls = 0 ∧
      (run2 [] envSpawnFailB).readiness = none) :=
  ⟨rfl, run2_spawn_failure_exits_one [] envSpawnFailB rfl⟩

/-- C10: in every invocation whose parsed options carry no port key,
options.port is undefined, so the template literal in run2 builds the
readiness target as the literal string "http://localhost:undefined";
with a probe that never succeeds (that address is nonsensical), the
readiness wait polls it until the whole default 60000 ms timeout
elapses. -/
theorem run2_missing_port_polls_undefined_url (argv : List String)
    (env : Env)
    (hport : lookupOpt (parseArgs argv []).2 "port" = none)
    (hprobe : ∀ k, env.probe k ≠ ProbeResult.ok)
    (hspawn : env.spawnFails = false) :
    (run2 (parseArgs argv []).2 env).url = "http://localhost:undefined" ∧
    (run2 (parseArgs argv []).2 env).readiness =
      some (.timedOut "http://localhost:undefined" 60000 60000) := by
  have hurl : serverURL (parseArgs argv []).2 = "http://localhost:undefined" := by
    simp [serverURL, hport, jsOptString]
  have hwait := waitLoop_never_ok env.probe "http://localhost:undefined" 60000
    hprobe (numAttempts 60000) 0
  have h2 : waitForUrl env.probe "http://localhost:undefined" 60000 =
      WaitResult.timedOut "http://localhost:undefined" 60000 60000 := by
    have h3 : (500 : Nat) * (0 + numAttempts 60000) = 60000 := by
      norm_num [numAttempts]
    rw [← h3]
    exact hwait
  constructor
  · simp [run2, hspawn, hurl]
  · simp [run2, hspawn, hurl, h2]

/-- Concrete instance of run2_missing_port_polls_undefined_url: the
invocation testkit run (no --port flag), with a server that spawns but
never answers the nonsensical URL, polls http://localhost:undefined for
the full 60000 ms. -/
theorem run2_missing_port_polls_undefined_url_witness :
    lookupOpt (parseArgs ["run"] []).2 "port" = none ∧
    (∀ k, envNeverReady.probe k ≠ ProbeResult.ok) ∧
    envNeverReady.spawnFails = false ∧
    ((run2 (parseArgs ["run"] []).2 envNeverReady).url =
        "http://localhost:undefined" ∧
      (run2 (parseArgs ["run"] []).2 envNeverReady).readiness =
        some (.timedOut "http://localhost:undefined" 60000 60000)) := by
  have hprobe : ∀ k, envNeverReady.probe k ≠ ProbeResult.ok :=
    fun k h => nomatch h
  exact ⟨rfl, hprobe, rfl,
    run2_missing_port_polls_undefined_url ["run"] envNeverReady rfl hprobe rfl⟩

end Testkit
